import Mathlib

/-!
Verification of the Hive "Adaptation Engine" core
(`hive_physics/adaptation/{aggregate,toxicity,patcher}.py` and the
search/replace applier exercised by `tests/agent/test_hands.py`).

Modelling conventions:
  * the filesystem is a map `String → Option String` (path to content,
    `none` = the file does not exist), mirroring how the Python code only
    ever reads whole files, writes whole files, or unlinks them;
  * Python floats are modelled as exact rationals (the weights 2.0, 0.1,
    25.0 and the integer-valued metrics involved keep every quantity the
    claims mention exactly representable);
  * the external `radon` library calls (`ComplexityVisitor.from_code` and
    `radon.raw.analyze(...).lloc`) are modelled as an oracle giving, for
    each input string, either the parsed data or the exception the call
    would raise.  `PyExc.synErr` stands for Python's `SyntaxError`,
    `PyExc.otherExc` for any other exception; the source catches bare
    `Exception` around the complexity call and only `SyntaxError` around
    the lloc call, and the model reproduces exactly that distinction;
  * the `git apply` subprocess of strategy A is modelled by its exit codes
    and the filesystem effect of a real apply; `git apply --check` is a
    dry run (spec section 6) and is modelled as having no effect.
-/

set_option autoImplicit false

namespace Hive

/-! ## Filesystem model -/

/-- A filesystem: path to optional byte content (`none` = absent). -/
def FS : Type := String → Option String

/-- Point update of a filesystem: `p.write_text c` / `p.unlink()`. -/
def fsWrite (fs : FS) (p : String) (c : Option String) : FS :=
  fun q => if q = p then c else fs q

/-! ## String primitives (Python semantics, `\n` line ends) -/

/-- Whether `pat` occurs at the head of `text` (pattern first). -/
def startsWithCL : List Char → List Char → Bool
  | [], _ => true
  | _ :: _, [] => false
  | p :: ps, c :: cs => p = c && startsWithCL ps cs

/-- Characters removed by Python `str.strip()` (ASCII whitespace). -/
def isPyWhitespace (c : Char) : Bool :=
  c = ' ' || c = '\t' || c = '\n' || c = '\r' || c = '\x0b' || c = '\x0c'

/-- Python `not code.strip()`: the text is empty or all whitespace. -/
def stripIsEmpty (s : String) : Bool :=
  s.data.all isPyWhitespace

/-- Python `len(code.splitlines())` for `\n`-terminated text: number of lines,
a trailing newline not opening a new line, the empty string giving 0. -/
def rawLineCount (l : List Char) : Nat :=
  if l = [] then 0
  else l.count '\n' + (if l.getLast? = some '\n' then 0 else 1)

/-- First occurrence split: `splitOnce pat text = some (before, after)`
when `text = before ++ pat ++ after` at the leftmost occurrence of
`pat`; `none` when `pat` does not occur (Python `str.find` semantics). -/
def splitOnce (pat : List Char) : List Char → Option (List Char × List Char)
  | [] => if startsWithCL pat [] then some ([], []) else none
  | c :: cs =>
    if startsWithCL pat (c :: cs) then some ([], (c :: cs).drop pat.length)
    else (splitOnce pat cs).map fun q => (c :: q.1, q.2)

/-- Replace the first occurrence of `pat` in `text` by `repl`;
`none` when `pat` does not occur. -/
def replaceOnce (text pat repl : List Char) : Option (List Char) :=
  (splitOnce pat text).map fun q => q.1 ++ repl ++ q.2

/-! ## The patch-path regexes of `AdaptationAggregate._execute_immune_logic`

`re.findall` with a lazy group: at each scan position try the literal
marker; on a marker hit the lazy `(.*?)` takes the shortest run of
non-newline characters followed by the delimiter, the scan resuming
after the whole match; if no delimiter is reachable before a newline or
the end of text, the scan moves one character forward. -/

/-- The lazy capture `(.*?)` up to `delim`: shortest non-newline run
followed by `delim`; returns the capture and the text after the match. -/
def captureTo (delim : List Char) : List Char → Option (List Char × List Char)
  | [] => none
  | c :: cs =>
    if startsWithCL delim (c :: cs) then some ([], (c :: cs).drop delim.length)
    else if c = '\n' then none
    else
      match captureTo delim cs with
      | some q => some (c :: q.1, q.2)
      | none => none

/-- Fuelled scan implementing `re.findall` for `marker(.*?)delim`;
fuel equal to the text length always suffices since every step consumes
at least one character. -/
def findallAux (marker delim : List Char) : Nat → List Char → List (List Char)
  | 0, _ => []
  | _ + 1, [] => []
  | fuel + 1, c :: cs =>
    if startsWithCL marker (c :: cs) then
      match captureTo delim ((c :: cs).drop marker.length) with
      | some q => q.1 :: findallAux marker delim fuel q.2
      | none => findallAux marker delim fuel cs
    else findallAux marker delim fuel cs

/-- Python `re.findall(marker + lazy capture + delim, s)`. -/
def findall (marker delim : List Char) (s : String) : List (List Char) :=
  findallAux marker delim s.data.length s.data

/-- Python `re.findall(r'diff --git a/(.*?) b/', patch)`. -/
def findallDiffGit (s : String) : List String :=
  (findall "diff --git a/".data " b/".data s).map fun l => ⟨l⟩

/-- Python `re.findall(r'--- a/(.*?)\n', patch)` (the raw string holding a
backslash-n, i.e. a literal newline in the pattern). -/
def findallDashA (s : String) : List String :=
  (findall "--- a/".data "\n".data s).map fun l => ⟨l⟩

/-- Step 1 of `_execute_immune_logic`: the target file list; all
`diff --git a/... b/` captures, else the first `--- a/...` capture as a
singleton, else the empty list. -/
def parseFilePaths (patch : String) : List String :=
  let fps := findallDiffGit patch
  if fps.isEmpty then
    match findallDashA patch with
    | [] => []
    | p :: _ => [p]
  else fps

/-! ## The toxicity scorer (`toxicity.py`) over the radon oracle -/

/-- The exception surface the source distinguishes: `SyntaxError`
versus any other exception. -/
inductive PyExc : Type
  | synErr
  | otherExc
deriving DecidableEq

/-- What `ComplexityVisitor.from_code` exposes: cyclomatic complexities
of the top-level functions and, per class, of its methods. -/
structure CVData : Type where
  functions : List Nat
  classes : List (List Nat)
deriving DecidableEq

/-- The oracle for the external `radon` library: for each input string,
the result or exception of `ComplexityVisitor.from_code` and of
`radon.raw.analyze(...).lloc`. -/
structure RadonOracle : Type where
  cv : String → Except PyExc CVData
  rawLloc : String → Except PyExc Nat

/-- Source `calculate_average_complexity`: 0 for whitespace-only text, 25.0
when radon raises (any exception), the default 1.0 when there is no
function or method block, else the average block complexity. -/
def calculate_average_complexity (radon : RadonOracle) (code : String) : ℚ :=
  if stripIsEmpty code then 0
  else
    match radon.cv code with
    | .error _ => 25
    | .ok d =>
      let total := d.functions.sum + (d.classes.map List.sum).sum
      let numBlocks := d.functions.length + (d.classes.map List.length).sum
      if numBlocks = 0 then 1 else (total : ℚ) / (numBlocks : ℚ)

/-- Source `calculate_lines_of_code`: 0 for whitespace-only text, the lloc when
`analyze` succeeds, `len(code.splitlines()) * 2` when it raises
`SyntaxError`; any other exception propagates (only `SyntaxError` is
caught in the source). -/
def calculate_lines_of_code (radon : RadonOracle) (code : String) : Except PyExc Nat :=
  if stripIsEmpty code then .ok 0
  else
    match radon.rawLloc code with
    | .ok n => .ok n
    | .error .synErr => .ok (2 * rawLineCount code.data)
    | .error .otherExc => .error .otherExc

/-- Source `calculate_toxicity_score`: `avg_complexity * 2.0 + loc * 0.1`,
propagating an uncaught exception from the lloc computation. -/
def calculate_toxicity_score (radon : RadonOracle) (code : String) : Except PyExc ℚ :=
  match calculate_lines_of_code radon code with
  | .error e => .error e
  | .ok loc => .ok (calculate_average_complexity radon code * 2 + (loc : ℚ) / 10)

/-! ## The Evolution Gate (`AdaptationAggregate._execute_immune_logic`) -/

/-- Python `sum(calculate_toxicity_score(c) for c in contents)`: Python `sum`
evaluates left to right and the first exception propagates. -/
def scoreList (radon : RadonOracle) : List String → Except PyExc ℚ
  | [] => .ok 0
  | c :: cs =>
    match calculate_toxicity_score radon c with
    | .error e => .error e
    | .ok q =>
      match scoreList radon cs with
      | .error e => .error e
      | .ok rest => .ok (q + rest)

/-- Python dict-key insertion order: first occurrence wins. -/
def insertKey (l : List String) (p : String) : List String :=
  if p ∈ l then l else l ++ [p]

/-- The key list of a Python dict built by inserting `ps` in order.
In the gate both dict builds rewrite the value of a repeated key with
the same value, so keys in first-occurrence order describe the dict. -/
def pyDictKeys (ps : List String) : List String :=
  ps.foldl insertKey []

/-- Source `_rollback(backup)`: for each entry in dict order, delete the path
when the recorded content is `none`, else write the recorded content.
Both cases set the filesystem at that path to the recorded value. -/
def rollback : List (String × Option String) → FS → FS
  | [], fs => fs
  | (p, c) :: rest, fs => rollback rest (fsWrite fs p c)

/-- The payload fields of the emitted `PatchAppliedEvent` that the
claims concern, plus the final filesystem and the snapshot key list
(`backup.keys()`); the source also carries `command_id` and the patch
text, which no claim mentions. -/
structure GateResult : Type where
  status : String
  pre_toxicity : ℚ
  post_toxicity : ℚ
  fs : FS
  backupKeys : List String

/-- Source `AdaptationAggregate._execute_immune_logic` for one
`ApplyPatchCommand`, parameterized by the radon oracle and by the
applier (`apply_patch_with_git`, an external subprocess returning a
success flag and the mutated filesystem).  Status strings as emitted by
the source: `"applied"`, `"rejected_by_git"` (the spec's
`RejectedByApplier`), `"rejected_by_toxicity"` (`RejectedByQuality`).
An uncaught scorer exception aborts the invocation with no event. -/
def executeImmuneLogic (radon : RadonOracle) (applier : String → FS → Bool × FS)
    (fs : FS) (patch : String) : Except PyExc GateResult :=
  let keys := pyDictKeys (parseFilePaths patch)
  let backup := keys.map fun p => (p, fs p)
  match scoreList radon (backup.filterMap Prod.snd) with
  | .error e => .error e
  | .ok pre =>
    let app := applier patch fs
    if app.1 then
      let newContents := keys.map fun p => (p, app.2 p)
      match scoreList radon (newContents.filterMap Prod.snd) with
      | .error e => .error e
      | .ok post =>
        if post ≤ pre then
          .ok ⟨"applied", pre, post, app.2, keys⟩
        else
          .ok ⟨"rejected_by_toxicity", pre, post, rollback backup app.2, keys⟩
    else
      .ok ⟨"rejected_by_git", pre, pre, rollback backup app.2, keys⟩

/-! ## Strategy A: `apply_patch_with_git` (`patcher.py`) -/

/-- The behaviour of the two `git apply` subprocess calls for one patch:
exit codes of the check and of the real apply, and the filesystem effect
of the real apply.  `git apply --check` is a dry run and mutates
nothing (spec section 6: "check (dry-run validate)"). -/
structure GitEnv : Type where
  checkExit : Nat
  applyExit : Nat
  applyEffect : FS → FS

/-- Observable record of one `apply_patch_with_git` call: the returned
flag, whether the real (non-check) `git apply` subprocess ran, whether
the temporary patch file was removed, and the resulting filesystem. -/
structure PatcherRun : Type where
  result : Bool
  ranApply : Bool
  tempDeleted : Bool
  fs : FS

/-- Source `apply_patch_with_git`: write the temp patch file, run
`git apply --check`; on non-zero exit return `False`; else run the real
`git apply`, returning `False` on non-zero exit, `True` otherwise.  The
`finally` clause unlinks the temp file on every exit path. -/
def apply_patch_with_git (env : GitEnv) (fs : FS) : PatcherRun :=
  if env.checkExit ≠ 0 then
    ⟨false, false, true, fs⟩
  else if env.applyExit ≠ 0 then
    ⟨false, true, true, env.applyEffect fs⟩
  else
    ⟨true, true, true, env.applyEffect fs⟩

/-! ## Strategy B: `apply_code_patch` (`mistral_agent/hands.py`)

Modelled from the spec: `mistral_agent/hands.py` is not in the source
tree (only `tests/agent/test_hands.py` is).  The model follows spec
section 4.5 — the three line markers `<<<<<<< SEARCH`, `=======`,
`>>>>>>> REPLACE` in order; "header not found" and "separator not
found" signalled as distinct errors (`ValueError` in the tests);
empty-search on a non-empty file rejected, on an empty file a pure
insertion; otherwise first-occurrence replacement — and the tests'
observed behaviour that an empty diff string returns `False` rather
than raising. -/

/-- The distinct malformed-input causes of the search/replace parser. -/
inductive HandsError : Type
  | headerNotFound
  | separatorNotFound
  | replaceMarkNotFound
deriving DecidableEq

/-- Modelled from the spec: parse of the search/replace block into
(search text, replacement text); each missing marker is its own
error. -/
def parseSearchReplace (diffText : String) : Except HandsError (List Char × List Char) :=
  match splitOnce "<<<<<<< SEARCH\n".data diffText.data with
  | none => .error .headerNotFound
  | some q =>
    match splitOnce "\n=======\n".data q.2 with
    | none => .error .separatorNotFound
    | some r =>
      match splitOnce "\n>>>>>>> REPLACE".data r.2 with
      | none => .error .replaceMarkNotFound
      | some s => .ok (r.1, s.1)

/-- Modelled from the spec: `apply_code_patch(path, diff)` acting on the
target file's content; `.ok (flag, newContent)` for the normal returns,
`.error` for a malformed diff (raised before any write). -/
def apply_code_patch (content : List Char) (diffText : String) :
    Except HandsError (Bool × List Char) :=
  if diffText = "" then .ok (false, content)
  else
    match parseSearchReplace diffText with
    | .error e => .error e
    | .ok sr =>
      if sr.1 = [] then
        if content = [] then .ok (true, sr.2)
        else .ok (false, content)
      else
        match replaceOnce content sr.1 sr.2 with
        | none => .ok (false, content)
        | some newC => .ok (true, newC)

/-- Modelled from the spec: `apply_code_patch` at the filesystem level —
the file is read, the diff parsed (raising before any write on a
malformed diff), and the file rewritten only when the patch applied. -/
def applyCodePatchFS (fs : FS) (path diffText : String) :
    Except HandsError Bool × FS :=
  match apply_code_patch ((fs path).getD "").data diffText with
  | .error e => (.error e, fs)
  | .ok br =>
    (.ok br.1, if br.1 then fsWrite fs path (some ⟨br.2⟩) else fs)

/-! ## Specification helpers -/

instance {ε α : Type} [DecidableEq ε] [DecidableEq α] :
    DecidableEq (Except ε α) := fun x y =>
  match x, y with
  | .error a, .error b =>
    if h : a = b then .isTrue (by rw [h])
    else .isFalse (fun hc => h (Except.error.inj hc))
  | .error _, .ok _ => .isFalse Except.noConfusion
  | .ok _, .error _ => .isFalse Except.noConfusion
  | .ok a, .ok b =>
    if h : a = b then .isTrue (by rw [h])
    else .isFalse (fun hc => h (Except.ok.inj hc))

/-- The value the last entry of `b` with key `q` records, if any;
`rollback` leaves exactly this at `q`. -/
def assocLast : List (String × Option String) → String → Option (Option String)
  | [], _ => none
  | (p, c) :: rest, q =>
    match assocLast rest q with
    | some v => some v
    | none => if q = p then some c else none

/-! ## Concrete fixtures for witnesses and counterexamples -/

/-- A radon oracle on which every input is trivial valid code:
no function or method blocks, three logical lines. -/
def oracle0 : RadonOracle := ⟨fun _ => .ok ⟨[], []⟩, fun _ => .ok 3⟩

/-- The empty filesystem. -/
def fs0 : FS := fun _ => none

/-- A filesystem holding the single file `f.py`. -/
def fs1 : FS := fun p => if p = "f.py" then some "x = 1\n" else none

/-- An applier that succeeds without touching anything. -/
def applierOk : String → FS → Bool × FS := fun _ fs => (true, fs)

/-- An applier that fails without touching anything. -/
def applierFail : String → FS → Bool × FS := fun _ fs => (false, fs)

/-- The gate outcome on `oracle0`, `applierOk`, `fs0`, patch `"x"`. -/
def gateRes0 : GateResult := ⟨"applied", 0, 0, fs0, []⟩

/-- The gate outcome on `oracle0`, `applierFail`, `fs1`,
patch `"--- a/f.py\n"` (the fallback branch is never taken). -/
def gateRes2 : GateResult :=
  match executeImmuneLogic oracle0 applierFail fs1 "--- a/f.py\n" with
  | .ok r => r
  | .error _ => ⟨"", 0, 0, fs0, []⟩

/-- The gate outcome on `oracle0`, `applierFail`, `fs0`,
patch `"--- a/x\n--- a/y\n"`. -/
def gateRes10 : GateResult :=
  ⟨"rejected_by_git", 0, 0, rollback [("x", none)] fs0, ["x"]⟩

/-- The syntactically invalid one-line input of the repository's own
scorer test (`test_toxicity_score_invalid_syntax`). -/
def cxBad : String := "def f(a, b:"

/-- A valid, trivial (no function or method blocks) one-line Python
file of 600 semicolon-separated assignment statements. -/
def cxTrivData : List Char := (List.replicate 599 "a=1;".data).flatten ++ "a=1".data

/-- The same file as a string. -/
def cxTriv : String := ⟨cxTrivData⟩

/-- Radon's behaviour on the two files above: `cxBad` raises
`SyntaxError` from both the complexity visit and `analyze` (certified
by the repository's own test, which records the score 50.2), while
`cxTriv` parses with no blocks and — radon counting one logical line
per statement, semicolon-separated statements separately — 600 logical
lines. -/
def cxOracle : RadonOracle :=
  ⟨fun s => if s = cxBad then .error .synErr else .ok ⟨[], []⟩,
   fun s => if s = cxBad then .error .synErr else .ok 600⟩

/-- Radon's behaviour on `cxBad` and on the short trivial one-line file
`"x = 1      "`: one logical line. -/
def oracle3 : RadonOracle :=
  ⟨fun s => if s = cxBad then .error .synErr else .ok ⟨[], []⟩,
   fun s => if s = cxBad then .error .synErr else .ok 1⟩

/-! ## Helper lemmas -/

theorem rollback_lookup (b : List (String × Option String)) (fs : FS) (q : String) :
    rollback b fs q = (assocLast b q).getD (fs q) := by
  induction b generalizing fs with
  | nil => rfl
  | cons pc rest ih =>
    obtain ⟨p, c⟩ := pc
    rw [rollback, ih, assocLast]
    cases assocLast rest q with
    | some v => rfl
    | none =>
      by_cases h : q = p <;> simp [fsWrite, h]

theorem mem_insertKey (l : List String) (a p : String) :
    p ∈ insertKey l a ↔ p ∈ l ∨ p = a := by
  unfold insertKey
  by_cases h : a ∈ l
  · simp only [if_pos h]
    constructor
    · exact Or.inl
    · rintro (hp | rfl)
      · exact hp
      · exact h
  · simp [if_neg h]

theorem mem_foldl_insertKey (ps : List String) (acc : List String) (p : String) :
    p ∈ ps.foldl insertKey acc ↔ p ∈ acc ∨ p ∈ ps := by
  induction ps generalizing acc with
  | nil => simp
  | cons a rest ih =>
    rw [List.foldl_cons, ih, mem_insertKey]
    simp only [List.mem_cons]
    tauto

theorem mem_pyDictKeys (ps : List String) (p : String) :
    p ∈ pyDictKeys ps ↔ p ∈ ps := by
  rw [pyDictKeys, mem_foldl_insertKey]
  simp

theorem assocLast_map_of_not_mem (keys : List String) (f : FS) (q : String)
    (h : q ∉ keys) :
    assocLast (keys.map fun p => (p, f p)) q = none := by
  induction keys with
  | nil => rfl
  | cons b bs ihb =>
    rw [List.map_cons, assocLast]
    have hb : q ≠ b := fun hqb => h (hqb ▸ List.mem_cons_self b bs)
    rw [ihb (fun hm => h (List.mem_cons_of_mem b hm))]
    simp [hb]

theorem rollback_snapshot (keys : List String) (f g : FS) (q : String)
    (hq : q ∈ keys) :
    rollback (keys.map fun p => (p, f p)) g q = f q := by
  induction keys generalizing g with
  | nil => cases hq
  | cons k rest ih =>
    rw [List.map_cons, rollback]
    by_cases h : q ∈ rest
    · exact ih _ h
    · have hk : q = k := by
        rcases List.mem_cons.mp hq with h' | h'
        · exact h'
        · exact absurd h' h
      subst hk
      rw [rollback_lookup, assocLast_map_of_not_mem rest f q h]
      simp [fsWrite]

/-! ## Claim theorems -/

/-- Claim C5 — snapshot restoration is idempotent: for every snapshot
(a path-to-optional-content list, applied in order as `_rollback` does)
and every starting filesystem, restoring twice leaves every path — in
particular every snapshot path — in the same state as restoring once. -/
theorem rollback_idempotent (b : List (String × Option String)) (fs : FS) (q : String) :
    rollback b (rollback b fs) q = rollback b fs q := by
  rw [rollback_lookup, rollback_lookup]
  cases h : assocLast b q with
  | some v => rfl
  | none => simp [rollback_lookup, h]

/-- Claim C7 — in `apply_patch_with_git` the real `git apply` never
runs unless `git apply --check` exited 0; on a non-zero check exit the
function returns `False`, mutates no file, and the temporary patch
file is still deleted (it is deleted on every exit path). -/
theorem patcher_check_gates_apply (env : GitEnv) (fs : FS) :
    ((apply_patch_with_git env fs).ranApply = true → env.checkExit = 0) ∧
    (env.checkExit ≠ 0 →
      (apply_patch_with_git env fs).result = false ∧
      (apply_patch_with_git env fs).fs = fs) ∧
    (apply_patch_with_git env fs).tempDeleted = true := by
  unfold apply_patch_with_git
  by_cases hc : env.checkExit = 0
  · by_cases ha : env.applyExit = 0 <;>
      simp [hc, ha]
  · simp [hc]

/-- Claim C7 witness: a check exiting 1 yields `False`, an untouched
filesystem, no real apply, and a deleted temp file. -/
theorem patcher_check_gates_apply_witness :
    ((apply_patch_with_git ⟨1, 0, id⟩ fs0).result = false ∧
      (apply_patch_with_git ⟨1, 0, id⟩ fs0).fs = fs0) ∧
    (apply_patch_with_git ⟨1, 0, id⟩ fs0).tempDeleted = true := by
  have h := patcher_check_gates_apply ⟨1, 0, id⟩ fs0
  exact ⟨h.2.1 (by decide), h.2.2⟩

/-- Claim C9 — empty or whitespace-only text scores exactly 0: both
metric functions return before consulting radon and the weighted sum
of zeros is zero. -/
theorem toxicity_empty_zero (radon : RadonOracle) (code : String)
    (h : stripIsEmpty code = true) :
    calculate_toxicity_score radon code = .ok 0 := by
  unfold calculate_toxicity_score calculate_lines_of_code calculate_average_complexity
  rw [h]
  norm_num

/-- Claim C9 witness: `score("") = 0` and `score("   ") = 0`. -/
theorem toxicity_empty_zero_witness :
    stripIsEmpty "" = true ∧
    calculate_toxicity_score oracle0 "" = .ok 0 ∧
    stripIsEmpty "   " = true ∧
    calculate_toxicity_score oracle0 "   " = .ok 0 :=
  ⟨by decide, toxicity_empty_zero oracle0 "" (by decide),
   by decide, toxicity_empty_zero oracle0 "   " (by decide)⟩

/-- Claim C8 — `calculate_toxicity_score` is total: for every input
string it returns a value, given the external boundary condition that
`radon.raw.analyze` signals invalid input via `SyntaxError` (the one
exception the source's `except` clause anticipates; every exception of
the complexity visit is caught unconditionally). -/
theorem toxicity_total (radon : RadonOracle) (code : String)
    (h : radon.rawLloc code ≠ Except.error PyExc.otherExc) :
    (calculate_toxicity_score radon code).isOk = true := by
  unfold calculate_toxicity_score calculate_lines_of_code
  by_cases hw : stripIsEmpty code
  · rw [hw]
    rfl
  · simp only [Bool.not_eq_true] at hw
    rw [hw]
    simp only [Bool.false_eq_true, if_false]
    cases hr : radon.rawLloc code with
    | ok n => rfl
    | error e =>
      cases e with
      | synErr => rfl
      | otherExc => exact absurd hr h

/-- Claim C8 witness: a total score on unparsable-looking text under a
benign oracle. -/
theorem toxicity_total_witness :
    oracle0.rawLloc "def f(" ≠ Except.error PyExc.otherExc ∧
    (calculate_toxicity_score oracle0 "def f(").isOk = true :=
  ⟨(fun h => nomatch h), toxicity_total oracle0 "def f(" (fun h => nomatch h)⟩

/-- Claim C4 (amended) — the target file list derived from a raw patch
is the list of `diff --git a/... b/` captures in order of occurrence
(duplicates retained: `re.findall` does not deduplicate), else the
first `--- a/...` capture alone, and it is empty — returned, not an
error — exactly when neither marker occurs. -/
theorem parse_paths_characterization (patch : String) :
    (findallDiffGit patch ≠ [] → parseFilePaths patch = findallDiffGit patch) ∧
    (findallDiffGit patch = [] →
      parseFilePaths patch = (findallDashA patch).take 1) ∧
    (parseFilePaths patch = [] ↔
      findallDiffGit patch = [] ∧ findallDashA patch = []) := by
  unfold parseFilePaths
  cases hg : findallDiffGit patch with
  | nil =>
    cases hd : findallDashA patch with
    | nil => simp
    | cons p ps => simp
  | cons p ps => simp

/-- Claim C4 counterexample: a patch naming the same path in two
`diff --git` lines yields that path twice — the derived target file
list is not deduplicated. -/
theorem parse_paths_duplicate :
    parseFilePaths "diff --git a/x b/x\ndiff --git a/x b/x\n" = ["x", "x"] ∧
    ¬ (parseFilePaths "diff --git a/x b/x\ndiff --git a/x b/x\n").Nodup := by
  constructor
  · decide
  · decide

/-- Claim C4 witness: a single-file patch without a `diff --git` line
falls back to the first `--- a/` capture. -/
theorem parse_paths_characterization_witness :
    findallDiffGit "--- a/f.py\n" = [] ∧
    parseFilePaths "--- a/f.py\n" = (findallDashA "--- a/f.py\n").take 1 :=
  ⟨by decide, (parse_paths_characterization "--- a/f.py\n").2.1 (by decide)⟩

/-- Claim C10 — when no `diff --git a/... b/` marker matches but at
least one `--- a/...` header does, the target file set is the singleton
of the first capture; any path named only by a later header is excluded
from the set and hence from the snapshot (`res.backupKeys`), the
scoring, and the rollback, all of which range over exactly the snapshot
keys. -/
theorem parse_single_dashA_first_only (radon : RadonOracle)
    (applier : String → FS → Bool × FS) (fs : FS)
    (patch : String) (res : GateResult) (p : String) (ps : List String)
    (hng : findallDiffGit patch = [])
    (hda : findallDashA patch = p :: ps)
    (hrun : executeImmuneLogic radon applier fs patch = .ok res) :
    parseFilePaths patch = [p] ∧ res.backupKeys = [p] ∧
    ∀ q, q ∈ ps → q ≠ p → q ∉ parseFilePaths patch := by
  have hp : parseFilePaths patch = [p] := by
    unfold parseFilePaths
    rw [hng, hda]
    rfl
  have hk : pyDictKeys [p] = [p] := by
    simp [pyDictKeys, insertKey]
  refine ⟨hp, ?_, ?_⟩
  · simp only [executeImmuneLogic, hp, hk] at hrun
    split at hrun
    · exact absurd hrun (by simp)
    · split at hrun
      · split at hrun
        · exact absurd hrun (by simp)
        · split at hrun
          · cases hrun
            rfl
          · cases hrun
            rfl
      · cases hrun
        rfl
  · intro q hq hqp
    rw [hp]
    simp [hqp]

/-- Claim C10 witness: with two `--- a/` headers only the first path
enters the target set and the snapshot. -/
theorem parse_single_dashA_first_only_witness :
    findallDiffGit "--- a/x\n--- a/y\n" = [] ∧
    findallDashA "--- a/x\n--- a/y\n" = ["x", "y"] ∧
    executeImmuneLogic oracle0 applierFail fs0 "--- a/x\n--- a/y\n" =
      .ok gateRes10 ∧
    parseFilePaths "--- a/x\n--- a/y\n" = ["x"] ∧
    gateRes10.backupKeys = ["x"] ∧
    "y" ∉ parseFilePaths "--- a/x\n--- a/y\n" := by
  have h := parse_single_dashA_first_only oracle0 applierFail fs0
    "--- a/x\n--- a/y\n" gateRes10 "x" ["y"] (by decide) (by decide) rfl
  exact ⟨by decide, by decide, rfl, h.1, h.2.1,
    h.2.2 "y" (by decide) (by decide)⟩

/-- Claim C3 (amended) — text failing to parse scores
`2.0 * 25.0 + 0.1 * (2 * raw_line_count)`, and this is strictly greater
than the `2.0 * 1.0 + 0.1 * lloc` score of a valid trivial file of the
same line count whenever that file's logical line count is below
`480 + 2 * raw_line_count` (a valid file packing that many
semicolon-separated statements into the same physical lines reaches an
equal or higher score, so the unconditional claim fails). -/
theorem toxicity_unparsable_penalty (radon : RadonOracle) (bad triv : String)
    (e : PyExc) (lloc : Nat)
    (hb : stripIsEmpty bad = false)
    (hcvb : radon.cv bad = .error e)
    (hrawb : radon.rawLloc bad = .error .synErr)
    (ht : stripIsEmpty triv = false)
    (hcvt : radon.cv triv = .ok ⟨[], []⟩)
    (hrawt : radon.rawLloc triv = .ok lloc)
    (_hlen : rawLineCount triv.data = rawLineCount bad.data)
    (hbound : lloc < 480 + 2 * rawLineCount bad.data) :
    calculate_toxicity_score radon bad =
      .ok (50 + (2 * rawLineCount bad.data : ℚ) / 10) ∧
    calculate_toxicity_score radon triv = .ok (2 + (lloc : ℚ) / 10) ∧
    2 + (lloc : ℚ) / 10 < 50 + (2 * rawLineCount bad.data : ℚ) / 10 := by
  refine ⟨?_, ?_, ?_⟩
  · unfold calculate_toxicity_score calculate_lines_of_code
      calculate_average_complexity
    rw [hb, hcvb, hrawb]
    simp only [Bool.false_eq_true, if_false]
    congr 1
    push_cast
    ring
  · unfold calculate_toxicity_score calculate_lines_of_code
      calculate_average_complexity
    rw [ht, hcvt, hrawt]
    simp only [Bool.false_eq_true, if_false]
    norm_num
  · have h : (lloc : ℚ) < 480 + 2 * (rawLineCount bad.data : ℚ) := by
      exact_mod_cast hbound
    linarith

set_option maxRecDepth 100000 in
/-- Claim C3 counterexample: against radon's behaviour — certified by
the repository's own test for `cxBad` (score 50.2), and lloc counting
one logical line per statement for the valid one-line 600-statement
file `cxTriv` — the unparsable file scores 50.2, the equal-length valid
trivial file scores 62, so "strictly greater" fails as stated. -/
theorem toxicity_unparsable_penalty_counterexample :
    cxOracle.cv cxBad = .error PyExc.synErr ∧
    cxOracle.rawLloc cxBad = .error PyExc.synErr ∧
    cxOracle.cv cxTriv = .ok ⟨[], []⟩ ∧
    cxOracle.rawLloc cxTriv = .ok 600 ∧
    rawLineCount cxBad.data = 1 ∧
    rawLineCount cxTriv.data = 1 ∧
    calculate_toxicity_score cxOracle cxBad = .ok (251 / 5) ∧
    calculate_toxicity_score cxOracle cxTriv = .ok 62 ∧
    ¬ (251 / 5 : ℚ) > 62 := by
  have hne : cxTriv ≠ cxBad := by decide
  have hcv : cxOracle.cv cxTriv = .ok ⟨[], []⟩ := by
    simp only [cxOracle]
    rw [if_neg hne]
  have hraw : cxOracle.rawLloc cxTriv = .ok 600 := by
    simp only [cxOracle]
    rw [if_neg hne]
  have hlinesB : rawLineCount cxBad.data = 1 := by decide
  have hlinesT : rawLineCount cxTriv.data = 1 := by decide
  have hstripT : stripIsEmpty cxTriv = false := by decide
  refine ⟨rfl, rfl, hcv, hraw, hlinesB, hlinesT, ?_, ?_, by norm_num⟩
  · unfold calculate_toxicity_score calculate_lines_of_code
      calculate_average_complexity
    rw [show stripIsEmpty cxBad = false from by decide]
    simp only [Bool.false_eq_true, if_false, cxOracle, if_pos rfl, hlinesB]
    norm_num
  · unfold calculate_toxicity_score calculate_lines_of_code
      calculate_average_complexity
    rw [hstripT, hcv, hraw]
    simp only [Bool.false_eq_true, if_false]
    norm_num

/-- Claim C3 witness: a one-line unparsable file against a same-length
valid trivial file of one logical line. -/
theorem toxicity_unparsable_penalty_witness :
    oracle3.cv cxBad = .error PyExc.synErr ∧
    oracle3.rawLloc cxBad = .error PyExc.synErr ∧
    oracle3.cv "x = 1      " = .ok ⟨[], []⟩ ∧
    oracle3.rawLloc "x = 1      " = .ok 1 ∧
    calculate_toxicity_score oracle3 cxBad =
      .ok (50 + (2 * rawLineCount cxBad.data : ℚ) / 10) ∧
    calculate_toxicity_score oracle3 "x = 1      " = .ok (2 + (1 : ℚ) / 10) ∧
    2 + (1 : ℚ) / 10 < 50 + (2 * rawLineCount cxBad.data : ℚ) / 10 := by
  have h := toxicity_unparsable_penalty oracle3 cxBad "x = 1      "
    PyExc.synErr 1 (by decide) (by decide) (by decide) (by decide)
    (by decide) (by decide) (by decide) (by decide)
  exact ⟨by decide, by decide, by decide, by decide, h.1, h.2.1, h.2.2⟩

/-- Claim C1 — the terminal status of a completed gate invocation is a
total three-way function of the run: applier failure gives
`"rejected_by_git"` (`RejectedByApplier`) with `post = pre` in the
emitted outcome; applier success with `post ≤ pre` (ties accepted)
gives `"applied"`; applier success with `post > pre` gives
`"rejected_by_toxicity"` (`RejectedByQuality`); no other status
occurs. -/
theorem gate_status_trichotomy (radon : RadonOracle)
    (applier : String → FS → Bool × FS) (fs : FS) (patch : String)
    (res : GateResult)
    (hrun : executeImmuneLogic radon applier fs patch = .ok res) :
    (res.status = "applied" ∨ res.status = "rejected_by_git" ∨
      res.status = "rejected_by_toxicity") ∧
    ((applier patch fs).1 = false →
      res.status = "rejected_by_git" ∧
      res.post_toxicity = res.pre_toxicity) ∧
    ((applier patch fs).1 = true → res.post_toxicity ≤ res.pre_toxicity →
      res.status = "applied") ∧
    ((applier patch fs).1 = true → res.pre_toxicity < res.post_toxicity →
      res.status = "rejected_by_toxicity") := by
  simp only [executeImmuneLogic] at hrun
  split at hrun
  · exact absurd hrun (by simp)
  · split at hrun
    · rename_i happ
      split at hrun
      · exact absurd hrun (by simp)
      · split at hrun
        · rename_i hle
          cases hrun
          refine ⟨Or.inl rfl, ?_, fun _ _ => rfl, ?_⟩
          · intro hf
            rw [happ] at hf
            cases hf
          · intro _ hlt
            exact absurd hle (not_le.mpr hlt)
        · rename_i hnle
          cases hrun
          refine ⟨Or.inr (Or.inr rfl), ?_, ?_, fun _ _ => rfl⟩
          · intro hf
            rw [happ] at hf
            cases hf
          · intro _ hle
            exact absurd hle hnle
    · rename_i happ
      simp only [Bool.not_eq_true] at happ
      cases hrun
      refine ⟨Or.inr (Or.inl rfl), fun _ => ⟨rfl, rfl⟩, ?_, ?_⟩
      · intro ht
        rw [happ] at ht
        cases ht
      · intro ht
        rw [happ] at ht
        cases ht

/-- Claim C1 witness: a completed run ends in one of the three
statuses. -/
theorem gate_status_trichotomy_witness :
    executeImmuneLogic oracle0 applierOk fs0 "x" = .ok gateRes0 ∧
    (gateRes0.status = "applied" ∨ gateRes0.status = "rejected_by_git" ∨
      gateRes0.status = "rejected_by_toxicity") :=
  ⟨rfl, (gate_status_trichotomy oracle0 applierOk fs0 "x" gateRes0 rfl).1⟩

/-- Claim C2 — on either rejected status the restore leaves every file
of the parsed target set exactly as it was before application began:
present files with their prior bytes, previously absent files absent
(the filesystem map at that path is unchanged, `none` included). -/
theorem gate_rejection_roundtrip (radon : RadonOracle)
    (applier : String → FS → Bool × FS) (fs : FS) (patch : String)
    (res : GateResult)
    (hrun : executeImmuneLogic radon applier fs patch = .ok res)
    (hrej : res.status = "rejected_by_git" ∨
      res.status = "rejected_by_toxicity") :
    ∀ p, p ∈ parseFilePaths patch → res.fs p = fs p := by
  simp only [executeImmuneLogic] at hrun
  split at hrun
  · exact absurd hrun (by simp)
  · split at hrun
    · split at hrun
      · exact absurd hrun (by simp)
      · split at hrun
        · cases hrun
          rcases hrej with h | h <;> simp at h
        · cases hrun
          intro p hp
          exact rollback_snapshot _ fs _ p ((mem_pyDictKeys _ p).mpr hp)
    · cases hrun
      intro p hp
      exact rollback_snapshot _ fs _ p ((mem_pyDictKeys _ p).mpr hp)

/-- Claim C2 witness: a rejected run restores the snapshotted file. -/
theorem gate_rejection_roundtrip_witness :
    executeImmuneLogic oracle0 applierFail fs1 "--- a/f.py\n" =
      .ok gateRes2 ∧
    gateRes2.status = "rejected_by_git" ∧
    gateRes2.fs "f.py" = fs1 "f.py" := by
  have h := gate_rejection_roundtrip oracle0 applierFail fs1 "--- a/f.py\n"
    gateRes2 rfl (Or.inl rfl)
  exact ⟨rfl, rfl, h "f.py" (by decide)⟩

/-- Claim C6 (amended) — a non-empty search/replace patch missing the
`<<<<<<< SEARCH` header, or missing the `=======` separator, makes
`apply_code_patch` signal the corresponding distinct error instead of
returning `False`, and the target file is unchanged (the error is
raised before any write).  Modelled from the spec (`hands.py` is absent
from the source tree); the empty diff string — which also lacks the
header — is the one exception: the repository's `test_empty_diff_string`
records that it returns `False` without raising, refuting the claim as
frozen. -/
theorem hands_malformed_distinct_errors (fs : FS) (path diffText : String)
    (hne : diffText ≠ "") :
    (splitOnce "<<<<<<< SEARCH\n".data diffText.data = none →
      applyCodePatchFS fs path diffText = (.error .headerNotFound, fs)) ∧
    (∀ pre rest,
      splitOnce "<<<<<<< SEARCH\n".data diffText.data = some (pre, rest) →
      splitOnce "\n=======\n".data rest = none →
      applyCodePatchFS fs path diffText = (.error .separatorNotFound, fs)) := by
  constructor
  · intro h
    unfold applyCodePatchFS apply_code_patch parseSearchReplace
    rw [if_neg hne, h]
  · intro pre rest h1 h2
    have hp : parseSearchReplace diffText = .error .separatorNotFound := by
      unfold parseSearchReplace
      rw [h1]
      simp only [h2]
    unfold applyCodePatchFS apply_code_patch
    rw [if_neg hne, hp]

/-- Claim C6 witness: the two malformed diffs of the repository's tests
produce their distinct errors and leave the filesystem unchanged. -/
theorem hands_malformed_distinct_errors_witness :
    applyCodePatchFS fs1 "t.txt" "x\n=======\ny\n>>>>>>> REPLACE\n" =
      (.error .headerNotFound, fs1) ∧
    applyCodePatchFS fs1 "t.txt" "<<<<<<< SEARCH\nabc\n>>>>>>> REPLACE\n" =
      (.error .separatorNotFound, fs1) := by
  have h1 := hands_malformed_distinct_errors fs1 "t.txt"
    "x\n=======\ny\n>>>>>>> REPLACE\n" (by decide)
  have h2 := hands_malformed_distinct_errors fs1 "t.txt"
    "<<<<<<< SEARCH\nabc\n>>>>>>> REPLACE\n" (by decide)
  exact ⟨h1.1 (by decide),
    h2.2 [] "abc\n>>>>>>> REPLACE\n".data (by decide) (by decide)⟩

/-- Claim C6 counterexample: the empty diff string is a search/replace
patch text in which the `<<<<<<< SEARCH` header is missing, yet
`apply_code_patch` returns `False` (file unchanged) instead of raising
the header error — the behaviour the repository's
`test_empty_diff_string` records — so "raises a distinct error, does
not return false" fails as frozen. -/
theorem hands_empty_diff_returns_false :
    splitOnce "<<<<<<< SEARCH\n".data "".data = none ∧
    applyCodePatchFS fs1 "t.txt" "" = (.ok false, fs1) ∧
    applyCodePatchFS fs1 "t.txt" "" ≠ (.error .headerNotFound, fs1) := by
  refine ⟨by decide, rfl, ?_⟩
  intro h
  exact Except.noConfusion (congrArg Prod.fst h)

end Hive
